import Mathlib

/-!
Verification development for the KamboChat pipeline.

Strings are modelled as `List Char`.  Python's `str` operations used by the
source are embedded explicitly:
  - `html.escape` (quote=True) as a per-character expansion,
  - `re.sub(r"[<>\x22\x27]", "", s)` as a filter,
  - `re.sub(r"\s+", " ", s)` as a run-collapsing scan,
  - `str.strip()` / `str.lower()` / `str.upper()` char-wise.
The `\s` class and `str.strip()` are modelled on the ASCII whitespace set;
the Unicode-only whitespace code points play no role in any statement below.
-/

namespace KamboChat

/-- Characters matched by the regex class `\s` and removed by `str.strip()`
(ASCII fragment: space, tab, newline, carriage return, vertical tab, form feed). -/
def pyIsSpace (c : Char) : Bool :=
  c = ' ' || c = '\t' || c = '\n' || c = '\r' || c = Char.ofNat 11 || c = Char.ofNat 12

/-- The double-quote character. -/
def quoteChar : Char := Char.ofNat 34

/-- The single-quote character. -/
def aposChar : Char := Char.ofNat 39

/-- One character's image under `html.escape` (default `quote=True`):
`&` is escaped first in CPython, so the replacement is equivalent to this
character-wise expansion. -/
def escapeChar (c : Char) : List Char :=
  if c = '&' then "&amp;".data
  else if c = '<' then "&lt;".data
  else if c = '>' then "&gt;".data
  else if c = quoteChar then "&quot;".data
  else if c = aposChar then "&#x27;".data
  else [c]

/-- `html.escape(s)` on the whole string. -/
def htmlEscape : List Char → List Char
  | [] => []
  | c :: t => escapeChar c ++ htmlEscape t

/-- A character kept by `re.sub(r"[<>\x22\x27]", "", s)`. -/
def keptChar (c : Char) : Bool :=
  !(c = '<' || c = '>' || c = quoteChar || c = aposChar)

/-- `re.sub(r"[<>\x22\x27]", "", s)`. -/
def stripDangerous (l : List Char) : List Char := l.filter keptChar

/-- `re.sub(r"\s+", " ", s)`: each maximal whitespace run becomes one space.
The boolean flag records whether the scan is inside a whitespace run. -/
def collapseWsAux : Bool → List Char → List Char
  | _, [] => []
  | inRun, c :: t =>
    if pyIsSpace c then
      if inRun then collapseWsAux true t else ' ' :: collapseWsAux true t
    else c :: collapseWsAux false t

/-- `re.sub(r"\s+", " ", s)` from the start of the string. -/
def collapseWs (l : List Char) : List Char := collapseWsAux false l

/-- Remove trailing whitespace (the right half of `str.strip()`). -/
def dropTrailingWs : List Char → List Char
  | [] => []
  | c :: t =>
    match dropTrailingWs t with
    | [] => if pyIsSpace c then [] else [c]
    | d :: r => c :: d :: r

/-- `str.strip()`. -/
def pyStrip (l : List Char) : List Char := dropTrailingWs (l.dropWhile pyIsSpace)

/-- The whitespace-normalisation tail of `_sanitize_input`:
`re.sub(r"\s+", " ", s).strip()`. -/
def normalizeWs (l : List Char) : List Char := pyStrip (collapseWs l)

/-- `InputValidator._sanitize_input`: HTML-escape, delete the residual
angle-bracket/quote characters, collapse whitespace runs, trim. -/
def _sanitize_input (user_input : List Char) : List Char :=
  normalizeWs (stripDangerous (htmlEscape user_input))

/-! Characters untouched by both `html.escape` and the `[<>\x22\x27]` deletion. -/

/-- A character that `html.escape` maps to itself (and that the bracket/quote
deletion keeps). -/
def plainChar (c : Char) : Bool :=
  !(c = '&' || c = '<' || c = '>' || c = quoteChar || c = aposChar)

/-- The head of the list, if any, is not whitespace. -/
def headNotWs : List Char → Bool
  | [] => true
  | c :: _ => !pyIsSpace c

/-- The shape produced by `collapseWs`: every whitespace character is a single
space `' '` not followed by further whitespace. -/
def wsNormed : List Char → Bool
  | [] => true
  | c :: t => (if pyIsSpace c then (c = ' ' : Bool) && headNotWs t else true) && wsNormed t

/-- `str.lower()` (ASCII usage). -/
def toLowerList (l : List Char) : List Char := l.map Char.toLower

/-- `str.upper()` (ASCII usage). -/
def toUpperList (l : List Char) : List Char := l.map Char.toUpper

/-- Python's substring test `pat in haystack`. -/
def containsSub (pat : List Char) : List Char → Bool
  | [] => pat.isEmpty
  | c :: t => pat.isPrefixOf (c :: t) || containsSub pat t

/-- Number of positions at which `pat` occurs as a contiguous substring. -/
def countOccur (pat : List Char) : List Char → Nat
  | [] => if pat.isEmpty then 1 else 0
  | c :: t => (if pat.isPrefixOf (c :: t) then 1 else 0) + countOccur pat t

/-! Matchers for `InputValidator.suspicious_patterns`.  Each regex of the source
is embedded as a boolean matcher run against the lower-cased raw input
(`re.IGNORECASE`).  `.` is modelled as matching any character and `\w`, `\s` on
their ASCII sets; the differences (newline under `.`, Unicode word/space
characters) are immaterial for every input considered in the theorems. -/

/-- Remainder of the text after the first occurrence of `p`, if any. -/
def restAfter (p : List Char) : List Char → Option (List Char)
  | [] => if p.isEmpty then some [] else none
  | c :: t => if p.isPrefixOf (c :: t) then some (List.drop p.length (c :: t)) else restAfter p t

/-- Matcher for `p1.*p2.*...*pn`: the pieces occur in order. -/
def containsSeq : List (List Char) → List Char → Bool
  | [], _ => true
  | p :: ps, l =>
    match restAfter p l with
    | some rest => containsSeq ps rest
    | none => false

/-- The regex class `\w` (ASCII fragment). -/
def isWordChar (c : Char) : Bool :=
  ('a' ≤ c && c ≤ 'z') || ('A' ≤ c && c ≤ 'Z') || ('0' ≤ c && c ≤ '9') || c = '_'

/-- The next character, if any, is not a word character (a `\b` boundary). -/
def headNotWord : List Char → Bool
  | [] => true
  | c :: _ => !isWordChar c

/-- Matcher for `\bw\b` scanning with the previous character tracked. -/
def containsWordAux (w : List Char) (prev : Option Char) : List Char → Bool
  | [] => false
  | c :: t =>
    ((match prev with | none => true | some p => !isWordChar p) &&
       w.isPrefixOf (c :: t) && headNotWord (List.drop w.length (c :: t)))
    || containsWordAux w (some c) t

/-- Matcher for `\bw\b`. -/
def containsWord (w : List Char) (l : List Char) : Bool := containsWordAux w none l

/-- Matcher for `\s*=` at the current position. -/
def spacesThenEq : List Char → Bool
  | [] => false
  | c :: t => if pyIsSpace c then spacesThenEq t else c = '='

/-- Matcher for `\w*\s*=` at the current position. -/
def afterWordSpacesEq : List Char → Bool
  | [] => false
  | c :: t => if isWordChar c then afterWordSpacesEq t else spacesThenEq (c :: t)

/-- Matcher for `on\w+\s*=` at the current position. -/
def onAttrAt : List Char → Bool
  | 'o' :: 'n' :: c :: t => isWordChar c && afterWordSpacesEq t
  | _ => false

/-- Matcher for the regex `on\w+\s*=` anywhere. -/
def containsOnAttr : List Char → Bool
  | [] => false
  | c :: t => onAttrAt (c :: t) || containsOnAttr t

/-- Matcher for `\s*\(` at the current position. -/
def spacesThenParen : List Char → Bool
  | [] => false
  | c :: t => if pyIsSpace c then spacesThenParen t else c = '('

/-- Matcher for `name\s*\(` anywhere (used for `eval\s*\(` and `exec\s*\(`). -/
def containsNameParen (name : List Char) : List Char → Bool
  | [] => false
  | c :: t =>
    (name.isPrefixOf (c :: t) && spacesThenParen (List.drop name.length (c :: t)))
    || containsNameParen name t

/-- Matcher for `p` preceded by `\s*` at the current position. -/
def spacesThenPrefix (p : List Char) : List Char → Bool
  | [] => p.isEmpty
  | c :: t => if pyIsSpace c then spacesThenPrefix p t else p.isPrefixOf (c :: t)

/-- Matcher for `\s+p` at the current position. -/
def spacePlusThenPrefix (p : List Char) : List Char → Bool
  | [] => false
  | c :: t => pyIsSpace c && spacesThenPrefix p t

/-- Matcher for `import\s+mod` anywhere. -/
def containsImportOf (modname : List Char) : List Char → Bool
  | [] => false
  | c :: t =>
    ("import".data.isPrefixOf (c :: t) && spacePlusThenPrefix modname (List.drop 6 (c :: t)))
    || containsImportOf modname t

/-- The SQL keywords of the `\b(union|select|...)\b` pattern. -/
def sqlKeywords : List (List Char) :=
  ["union".data, "select".data, "insert".data, "update".data,
   "delete".data, "drop".data, "create".data, "alter".data]

/-- The shell metacharacter class `[;&|` ++ "`" ++ `$]`. -/
def isShellMeta (c : Char) : Bool :=
  c = ';' || c = '&' || c = '|' || c = Char.ofNat 96 || c = '$'

/-- `InputValidator.suspicious_patterns`, one matcher per source regex, in
source order. -/
def suspiciousMatchers : List (List Char → Bool) :=
  [ containsSeq ["ignore".data, "previous".data, "instructions".data],
    containsSeq ["forget".data, "previous".data, "instructions".data],
    containsSeq ["system".data, "prompt".data],
    containsSeq ["ignore".data, "above".data],
    containsSeq ["disregard".data, "previous".data],
    containsSeq ["ignore".data, "all".data, "above".data],
    containsSeq ["disregard".data, "all".data, "above".data],
    containsSeq ["<script".data, ">".data],
    containsSub "javascript:".data,
    containsOnAttr,
    containsNameParen "eval".data,
    containsNameParen "exec".data,
    fun l => sqlKeywords.any (fun w => containsWord w l),
    fun l => l.any isShellMeta,
    containsSub "../".data,
    containsSub "..\\".data,
    containsImportOf "os".data,
    containsImportOf "subprocess".data,
    containsSub "__import__".data ]

/-- Whether any compiled suspicious pattern matches the raw input
(`re.IGNORECASE` realised by lower-casing input and patterns). -/
def hasSuspiciousPattern (raw : List Char) : Bool :=
  suspiciousMatchers.any (fun m => m (toLowerList raw))

/-- `settings.max_input_length` (default configuration value 2000). -/
def max_input_length : Nat := 2000

/-- `InputValidator.validate_input`, returning `(is_valid, sanitized_input)`.
The length check rejects first, then any suspicious-pattern hit rejects; both
return an empty sanitized string.  The diagnostic `validation_details` dict is
elided (not behaviourally relevant). -/
def validate_input (user_input : List Char) : Bool × List Char :=
  if user_input.length > max_input_length then (false, [])
  else if hasSuspiciousPattern user_input then (false, [])
  else (true, _sanitize_input user_input)

/-! The coordinator state machine (`src/langchain/coordinator.py`). -/

/-- Hate-speech indicator phrases of `_moderate_input_node`. -/
def hate_indicators : List (List Char) :=
  ["hate".data, "kill".data, "harm".data, "attack".data]

/-- Self-harm indicator phrases of `_moderate_input_node`. -/
def self_harm_indicators : List (List Char) :=
  ["kill myself".data, "end my life".data, "suicide".data]

/-- The violation list built by `_moderate_input_node`'s try block from
indicator scans over the lower-cased sanitized message. -/
def moderationViolations (sanitized_message : List Char) : List (List Char) :=
  (if hate_indicators.any (fun i => containsSub i (toLowerList sanitized_message))
   then ["Potential hate speech detected".data] else []) ++
  (if self_harm_indicators.any (fun i => containsSub i (toLowerList sanitized_message))
   then ["Self-harm content detected".data] else [])

/-- The stored result of the validation stage; on rejection the source stores
only `valid`/diagnostics, modelled as `valid := false` with empty text. -/
structure ValidationResult where
  valid : Bool
  sanitized_message : List Char
deriving DecidableEq

/-- The stored result of the moderation stage. -/
structure ModerationResult where
  passed : Bool
  violations : List (List Char)
deriving DecidableEq

/-- The stored result of the medical-verification stage. -/
structure MedicalVerificationResult where
  is_safe : Bool
  is_medical_advice : Bool
  feedback : List Char
  raw_response : List Char
deriving DecidableEq

/-- The parsing block of `_verify_medical_node`, applied to the raw output of
the verifier collaborator: upper-case the stripped output, `is_safe` iff the
substring SAFE occurs, and accumulate one fixed phrase per violation keyword
found, defaulting to a generic phrase when unsafe with no keyword. -/
def parseVerification (result : List Char) : MedicalVerificationResult :=
  let response_text := toUpperList (pyStrip result)
  let is_safe := containsSub "SAFE".data response_text
  let is_medical_advice := containsSub "MEDICAL_ADVICE".data response_text
  let feedback :=
    if is_safe then []
    else
      let f := ([] : List Char) ++
        (if containsSub "DIAGNOSIS".data response_text
         then "Contains diagnostic information. ".data else [])
      let f := f ++
        (if containsSub "TREATMENT".data response_text
         then "Contains treatment recommendations. ".data else [])
      let f := f ++
        (if containsSub "DOSAGE".data response_text
         then "Contains dosage information. ".data else [])
      let f := f ++
        (if containsSub "CURE".data response_text
         then "Contains curative claims. ".data else [])
      let f := f ++
        (if containsSub "HEAL".data response_text
         then "Contains healing promises. ".data else [])
      if f.isEmpty then "Contains medical advice that should be avoided.".data else f
  { is_safe := is_safe, is_medical_advice := is_medical_advice,
    feedback := feedback, raw_response := pyStrip result }

/-- `ChatState`: the fields that drive control flow.  `messages`,
`conversation_id`, `conversation_history` and the diagnostic `metadata` dict
are elided (the spec marks metadata as non-binding; ids and history flow only
to the persistence collaborator). -/
structure ChatState where
  user_message : List Char
  user_id : List Char
  validation_result : Option ValidationResult
  moderation_result : Option ModerationResult
  safety_check_result : Option Bool
  rag_context : Option (List Char)
  kambo_response : Option (List Char)
  medical_verification_result : Option MedicalVerificationResult
  medical_verification_attempts : Nat
  medical_verification_feedback : List (List Char)
  final_response : Option (List Char)
  error : Option (List Char)
deriving DecidableEq

/-- Python truthiness of an optional string (`None` and `""` are falsy). -/
def strTruthy : Option (List Char) → Bool
  | none => false
  | some s => !s.isEmpty

/-- Python truthiness of the optional boolean `safety_check_result`. -/
def optBoolTruthy : Option Bool → Bool
  | none => false
  | some b => b

/-- Python truthiness of `state["validation_result"]["valid"]` style access. -/
def validationPassed (s : ChatState) : Bool :=
  match s.validation_result with
  | some v => v.valid
  | none => false

/-- Python truthiness of `state["moderation_result"]["passed"]`. -/
def moderationPassed (s : ChatState) : Bool :=
  match s.moderation_result with
  | some m => m.passed
  | none => false

/-- `state["validation_result"]["sanitized_message"]` (only read on paths where
validation succeeded). -/
def sanitizedOf (s : ChatState) : List Char :=
  match s.validation_result with
  | some v => v.sanitized_message
  | none => []

/-- Outcome of one generation-collaborator call: the returned text, or the
message of a raised exception. -/
inductive CollabOutcome where
  | ok (text : List Char)
  | exn (message : List Char)
deriving DecidableEq

/-- Fault-injection environment for one run: what each external call returns.
`verify_call k` and `enhanced_call k` give the outcome of the k-th
verification and k-th enhanced regeneration; `moderation_exn` injects an
internal error into the moderation node's try block. -/
structure CollabEnv where
  safety_call : CollabOutcome
  generate_call : CollabOutcome
  verify_call : Nat → CollabOutcome
  enhanced_call : Nat → CollabOutcome
  moderation_exn : Option (List Char)

/-- One generation-collaborator invocation, recorded so that statements like
"the generation collaborator receives zero calls" are expressible. -/
inductive CollabCall where
  | topicClassify
  | generate
  | verify
  | enhanced
deriving DecidableEq

/-- `Coordinator._validate_input_node` (the fire-and-forget security-event
record on rejection is elided). -/
def _validate_input_node (s : ChatState) : ChatState :=
  let r := validate_input s.user_message
  if !r.1 then
    { s with validation_result := some { valid := false, sanitized_message := [] } }
  else
    { s with validation_result := some { valid := true, sanitized_message := r.2 } }

/-- `Coordinator._moderate_input_node`: guard, then the try block scanning the
indicator lists; an injected internal exception lands in the except branch. -/
def _moderate_input_node (env : CollabEnv) (s : ChatState) : ChatState :=
  if !validationPassed s then s
  else
    match env.moderation_exn with
    | some e =>
      { s with moderation_result :=
                 some { passed := false,
                        violations := ["Moderation error: ".data ++ e] } }
    | none =>
      let violations := moderationViolations (sanitizedOf s)
      if !violations.isEmpty then
        { s with moderation_result := some { passed := false, violations := violations } }
      else
        { s with moderation_result := some { passed := true, violations := [] } }

/-- `Coordinator._check_safety_node`: invokes the topic-classification chain;
YES anywhere in the upper-cased stripped answer marks the question on-topic;
an exception lands in the except branch with `safety_check_result = False`. -/
def _check_safety_node (env : CollabEnv) (s : ChatState) : ChatState × List CollabCall :=
  if !moderationPassed s then (s, [])
  else
    match env.safety_call with
    | .ok result =>
      let response := toUpperList (pyStrip result)
      if containsSub "YES".data response then
        ({ s with safety_check_result := some true }, [.topicClassify])
      else
        ({ s with safety_check_result := some false,
                  error := some "safety_check_failed: Question is not Kambo-related".data },
         [.topicClassify])
    | .exn e =>
      ({ s with safety_check_result := some false,
                error := some ("Safety check failed: ".data ++ e) }, [.topicClassify])

/-- `Coordinator._retrieve_context_node`; the try body is a constant
assignment, so its except branch is unreachable and not modelled. -/
def _retrieve_context_node (s : ChatState) : ChatState :=
  if !optBoolTruthy s.safety_check_result then s
  else
    { s with rag_context :=
               some "Kambo is a traditional Amazonian medicine used in healing ceremonies.".data }

/-- `Coordinator._generate_kambo_response_node` (metadata elided). -/
def _generate_kambo_response_node (env : CollabEnv) (s : ChatState) :
    ChatState × List CollabCall :=
  if !optBoolTruthy s.safety_check_result then (s, [])
  else
    match env.generate_call with
    | .ok result => ({ s with kambo_response := some (pyStrip result) }, [.generate])
    | .exn e =>
      ({ s with error := some ("Response generation failed: ".data ++ e) }, [.generate])

/-- `Coordinator._verify_medical_node`: parse the verifier collaborator's
output, or on exception record the fail-closed synthetic result. -/
def _verify_medical_node (env : CollabEnv) (k : Nat) (s : ChatState) :
    ChatState × List CollabCall :=
  match env.verify_call k with
  | .ok result =>
    ({ s with medical_verification_result := some (parseVerification result) }, [.verify])
  | .exn e =>
    ({ s with medical_verification_result :=
                some { is_safe := false, is_medical_advice := true,
                       feedback := "Verification failed: ".data ++ e,
                       raw_response := [] } },
     [.verify])

/-- `max_attempts` as hard-coded in `_check_retry_limit_node` and
`_should_retry_or_fail`. -/
def max_attempts : Nat := 3

/-- `Coordinator._check_retry_limit_node`. -/
def _check_retry_limit_node (s : ChatState) : ChatState :=
  let attempts := s.medical_verification_attempts
  if attempts < max_attempts then
    { s with medical_verification_attempts := attempts + 1 }
  else
    { s with error :=
               some "Maximum retry attempts (3) exceeded for medical verification".data }

/-- `Coordinator._enhanced_kambo_response_node` (metadata elided).  On an
exception only `error` is set: the previous `kambo_response` survives the
dict merge. -/
def _enhanced_kambo_response_node (env : CollabEnv) (k : Nat) (s : ChatState) :
    ChatState × List CollabCall :=
  let medical_feedback :=
    match s.medical_verification_result with
    | some r => r.feedback
    | none => []
  match env.enhanced_call k with
  | .ok result =>
    ({ s with kambo_response := some (pyStrip result),
              medical_verification_feedback :=
                s.medical_verification_feedback ++ [medical_feedback] }, [.enhanced])
  | .exn e =>
    ({ s with error := some ("Enhanced response generation failed: ".data ++ e) },
     [.enhanced])

/-- The fixed disclaimer appended by `_create_final_response_node`. -/
def medical_disclaimer : List Char :=
  ("\n\n⚠️ **Medical Disclaimer**: This information is for educational purposes only. Kambo ceremonies should only be performed by trained practitioners. Always consult with qualified healthcare providers before participating in any traditional healing practices.").data

/-- The refinement note appended when more than one verification attempt was
needed. -/
def retryInfoText (attempts : Nat) : List Char :=
  "\n\n*This response was refined after ".data ++ (Nat.repr attempts).data ++
    " verification attempts to ensure it meets safety guidelines.*".data

/-- `Coordinator._create_final_response_node`. -/
def _create_final_response_node (s : ChatState) : ChatState :=
  if strTruthy s.error then s
  else
    let kambo_response := s.kambo_response.getD []
    let attempts := s.medical_verification_attempts
    let retry_info := if attempts > 1 then retryInfoText attempts else []
    { s with final_response := some (kambo_response ++ medical_disclaimer ++ retry_info) }

/-- Case-insensitive containment, `pat in error_message.lower()` (patterns in
the source are lower-case). -/
def lowerContains (pat msg : List Char) : Bool :=
  containsSub pat (toLowerList msg)

/-- Default error message substituted for a falsy `error` field. -/
def unexpected_error_message : List Char := "An unexpected error occurred".data

/-- Fallback for off-topic or failed safety checks. -/
def kambo_only_response : List Char :=
  "I can only provide information about Kambo ceremonies and traditional practices. Please ask a Kambo-related question.".data

/-- Fallback for validation errors. -/
def rephrase_response : List Char :=
  "I'm sorry, but I cannot process that request. Please rephrase your question.".data

/-- Fallback for moderation errors. -/
def content_policy_response : List Char :=
  "I'm sorry, but your message violates our content policy. Please rephrase your question.".data

/-- Fallback for medical-verification errors. -/
def unsafe_response_fallback : List Char :=
  "I apologize, but I'm unable to provide a safe response to your question. Please consult with qualified healthcare providers for medical advice.".data

/-- Fallback for retry exhaustion. -/
def retry_exhausted_response : List Char :=
  "I apologize, but I'm unable to provide a response that meets our safety guidelines. Please consult with qualified healthcare providers for medical advice.".data

/-- Generic fallback. -/
def generic_error_response : List Char :=
  "I apologize, but I encountered an error processing your request. Please try again.".data

/-- `Coordinator._handle_error_node`: keyword cascade over the error message
(first branch case-sensitive, the rest on the lower-cased message). -/
def _handle_error_node (s : ChatState) : ChatState :=
  let error_message :=
    match s.error with
    | some e => if e.isEmpty then unexpected_error_message else e
    | none => unexpected_error_message
  let final_response :=
    if containsSub "safety_check_failed".data error_message then kambo_only_response
    else if lowerContains "validation".data error_message then rephrase_response
    else if lowerContains "moderation".data error_message then content_policy_response
    else if lowerContains "safety".data error_message then kambo_only_response
    else if lowerContains "medical verification".data error_message then
      unsafe_response_fallback
    else if lowerContains "retry attempts".data error_message then
      retry_exhausted_response
    else generic_error_response
  { s with final_response := some final_response, error := some error_message }

/-- `Coordinator._should_continue_after_validation`. -/
def _should_continue_after_validation (s : ChatState) : String :=
  if validationPassed s then "continue" else "error"

/-- `Coordinator._should_continue_after_moderation`. -/
def _should_continue_after_moderation (s : ChatState) : String :=
  if moderationPassed s then "continue" else "error"

/-- `Coordinator._should_generate_response`. -/
def _should_generate_response (s : ChatState) : String :=
  if optBoolTruthy s.safety_check_result then "continue" else "reject"

/-- `Coordinator._should_verify_medical`. -/
def _should_verify_medical (s : ChatState) : String :=
  if strTruthy s.kambo_response then "continue" else "error"

/-- `Coordinator._should_retry_or_continue` (the source indexes
`medical_verification_result` directly; it is always set on this edge, and the
`none` case maps to the error route). -/
def _should_retry_or_continue (s : ChatState) : String :=
  match s.medical_verification_result with
  | some r => if r.is_safe then "safe" else if r.is_medical_advice then "retry" else "error"
  | none => "error"

/-- `Coordinator._should_retry_or_fail`. -/
def _should_retry_or_fail (s : ChatState) : String :=
  if s.medical_verification_attempts < max_attempts then "retry" else "fail"

/-- The cyclic `verify_medical → check_retry_limit → enhanced_kambo_response →
verify_medical` part of the graph.  `fuel` bounds the iterations the model
executes; `verifyLoop_total` proves fuel 4 is never exhausted from the initial
state, which is exactly the termination of the retry loop. -/
def verifyLoop (env : CollabEnv) :
    Nat → Nat → ChatState → Option (ChatState × List CollabCall)
  | 0, _, _ => none
  | fuel + 1, k, s =>
    let p1 := _verify_medical_node env k s
    let route := _should_retry_or_continue p1.1
    if route = "safe" then some (_create_final_response_node p1.1, p1.2)
    else if route = "retry" then
      let s2 := _check_retry_limit_node p1.1
      if _should_retry_or_fail s2 = "retry" then
        let p3 := _enhanced_kambo_response_node env k s2
        if _should_verify_medical p3.1 = "continue" then
          match verifyLoop env fuel (k + 1) p3.1 with
          | some (s4, c3) => some (s4, p1.2 ++ p3.2 ++ c3)
          | none => none
        else some (_handle_error_node p3.1, p1.2 ++ p3.2)
      else some (_handle_error_node s2, p1.2)
    else some (_handle_error_node p1.1, p1.2)

/-- The initial state built by `process_message` (ids and history elided). -/
def initialState (user_message user_id : List Char) : ChatState :=
  { user_message := user_message, user_id := user_id,
    validation_result := none, moderation_result := none,
    safety_check_result := none, rag_context := none, kambo_response := none,
    medical_verification_result := none, medical_verification_attempts := 0,
    medical_verification_feedback := [], final_response := none, error := none }

/-- One full graph execution following the conditional edges of `_build_graph`,
recording every generation-collaborator call. -/
def runGraph (env : CollabEnv) (user_message user_id : List Char) :
    Option (ChatState × List CollabCall) :=
  let s := _validate_input_node (initialState user_message user_id)
  if _should_continue_after_validation s = "continue" then
    let s := _moderate_input_node env s
    if _should_continue_after_moderation s = "continue" then
      let p1 := _check_safety_node env s
      if _should_generate_response p1.1 = "continue" then
        let s := _retrieve_context_node p1.1
        if _should_generate_response s = "continue" then
          let p2 := _generate_kambo_response_node env s
          if _should_verify_medical p2.1 = "continue" then
            match verifyLoop env 4 0 p2.1 with
            | some (s4, c3) => some (s4, p1.2 ++ p2.2 ++ c3)
            | none => none
          else some (_handle_error_node p2.1, p1.2 ++ p2.2)
        else some (_handle_error_node s, p1.2)
      else some (_handle_error_node p1.1, p1.2)
    else some (_handle_error_node s, [])
  else some (_handle_error_node s, [])

/-- The value returned by `process_message` (`conversation_id` and `metadata`
elided).  `response` mirrors `final_state.get("final_response", ...)`: the key
is always present, so the stored value is returned even when it is `None`. -/
structure ProcessResult where
  success : Bool
  response : Option (List Char)
  error : Option (List Char)
deriving DecidableEq

/-- `Coordinator.process_message` over the fault-injection environment.  The
fuel-exhaustion case maps to the outer exception fallback of the source and is
proved unreachable (`runGraph_total`). -/
def process_message (env : CollabEnv) (user_message user_id : List Char) : ProcessResult :=
  match runGraph env user_message user_id with
  | some (s, _) =>
    { success := s.final_response.isSome && !strTruthy s.error,
      response := s.final_response,
      error := s.error }
  | none =>
    { success := false,
      response := some generic_error_response,
      error := some "unreachable: loop fuel exhausted".data }

/-- The generation-collaborator calls made during one run. -/
def process_calls (env : CollabEnv) (user_message user_id : List Char) : List CollabCall :=
  match runGraph env user_message user_id with
  | some (_, calls) => calls
  | none => []

/-- The final state of one run, when the loop fuel suffices. -/
def runGraphState (env : CollabEnv) (user_message user_id : List Char) : Option ChatState :=
  match runGraph env user_message user_id with
  | some (s, _) => some s
  | none => none

/-! Concrete inputs and environments used in witnesses and counterexamples. -/

/-- A benign on-topic question (passes validation and moderation). -/
def qKambo : List Char := "Tell me about Kambo".data

/-- Default user id. -/
def uAnon : List Char := "anonymous".data

/-- Environment with an accepting classifier, a benign draft, and a verifier
that always flags treatment advice. -/
def envAlwaysUnsafe : CollabEnv :=
  { safety_call := .ok "YES".data,
    generate_call := .ok "Kambo is used to treat many conditions".data,
    verify_call := fun _ => .ok "MEDICAL_ADVICE TREATMENT".data,
    enhanced_call := fun _ => .ok "Kambo is a traditional ceremony".data,
    moderation_exn := none }

/-- Environment where the first verification accepts. -/
def envSafe : CollabEnv :=
  { safety_call := .ok "YES".data,
    generate_call := .ok "Kambo is a traditional Amazonian practice".data,
    verify_call := fun _ => .ok "SAFE".data,
    enhanced_call := fun _ => .ok "unused".data,
    moderation_exn := none }

/-- Environment whose topic classifier answers NO. -/
def envOffTopic : CollabEnv := { envSafe with safety_call := .ok "NO".data }

/-- Environment whose generator emits a draft that itself embeds the fixed
disclaimer text. -/
def envEchoDisclaimer : CollabEnv :=
  { envSafe with generate_call := .ok ("Intro".data ++ medical_disclaimer) }

/-- The final response produced by `envEchoDisclaimer` on `qKambo`. -/
def frEcho : List Char := "Intro".data ++ medical_disclaimer ++ medical_disclaimer

/-- Environment whose topic classifier raises; generator, verifier and
regenerator are arbitrary (they are never reached). -/
def envWithSafetyExn (e : List Char) (g : CollabOutcome) (v eh : Nat → CollabOutcome) :
    CollabEnv :=
  { safety_call := .exn e, generate_call := g, verify_call := v,
    enhanced_call := eh, moderation_exn := none }

/-- Concrete instance of `envWithSafetyExn`. -/
def envSafetyExn : CollabEnv :=
  envWithSafetyExn "Connection timeout".data (.ok "unused".data)
    (fun _ => .ok "SAFE".data) (fun _ => .ok "unused".data)

/-- Environment whose verifier collaborator raises on every call. -/
def envVerifyExn : CollabEnv :=
  { envSafe with verify_call := fun _ => .exn "Request timeout".data }

/-- Environment with an internal moderation error injected. -/
def envModExn : CollabEnv :=
  { envSafe with moderation_exn := some "database unavailable".data }

/-- An input containing the indicator substring `attack` (passes validation). -/
def qAttack : List Char := "How do I attack someone".data

/-- An input where the indicator `harm` occurs only inside the benign word
`pharmacy`. -/
def qPharmacy : List Char := "What should I buy at the pharmacy".data

/-- The verifier's violation vocabulary with the phrase each keyword
contributes, in the fixed order the source checks them. -/
def medicalVocabPhrases : List (List Char × List Char) :=
  [("DIAGNOSIS".data, "Contains diagnostic information. ".data),
   ("TREATMENT".data, "Contains treatment recommendations. ".data),
   ("DOSAGE".data, "Contains dosage information. ".data),
   ("CURE".data, "Contains curative claims. ".data),
   ("HEAL".data, "Contains healing promises. ".data)]

/-- Generic default of the verifier's feedback when no specific category is
named. -/
def generic_medical_feedback : List Char :=
  "Contains medical advice that should be avoided.".data

/-- The fixed list of indicator phrases scanned by moderation. -/
def all_moderation_indicators : List (List Char) :=
  hate_indicators ++ self_harm_indicators

theorem escapeChar_eq_self {c : Char} (h : plainChar c = true) : escapeChar c = [c] := by
  simp only [plainChar, Bool.not_eq_true', Bool.or_eq_false_iff, decide_eq_false_iff_not] at h
  simp [escapeChar, h.1.1.1.1, h.1.1.1.2, h.1.1.2, h.1.2, h.2]

theorem htmlEscape_eq_self {l : List Char} (h : ∀ c ∈ l, plainChar c = true) :
    htmlEscape l = l := by
  induction l with
  | nil => rfl
  | cons c t ih =>
    simp only [htmlEscape]
    rw [escapeChar_eq_self (h c (by simp)), ih (fun d hd => h d (by simp [hd]))]
    rfl

theorem keptChar_of_plainChar {c : Char} (h : plainChar c = true) : keptChar c = true := by
  simp only [plainChar, Bool.not_eq_true', Bool.or_eq_false_iff, decide_eq_false_iff_not] at h
  simp [keptChar, h.1.1.1.2, h.1.1.2, h.1.2, h.2]

theorem stripDangerous_eq_self {l : List Char} (h : ∀ c ∈ l, plainChar c = true) :
    stripDangerous l = l :=
  List.filter_eq_self.mpr (fun c hc => keptChar_of_plainChar (h c hc))

theorem wsNormed_cons {c : Char} {t : List Char} :
    wsNormed (c :: t) = true ↔
      ((pyIsSpace c = true → (c = ' ' ∧ headNotWs t = true)) ∧ wsNormed t = true) := by
  by_cases hc : pyIsSpace c = true <;> simp [wsNormed, hc]

theorem dropTrailingWs_cons (c : Char) (t : List Char) :
    dropTrailingWs (c :: t) =
      match dropTrailingWs t with
      | [] => if pyIsSpace c then [] else [c]
      | d :: r => c :: d :: r := rfl

theorem headNotWs_collapseWsAux_true (l : List Char) :
    headNotWs (collapseWsAux true l) = true := by
  induction l with
  | nil => rfl
  | cons c t ih =>
    by_cases h : pyIsSpace c = true
    · simpa [collapseWsAux, h] using ih
    · simp [collapseWsAux, h, headNotWs]

theorem wsNormed_collapseWsAux (b : Bool) (l : List Char) :
    wsNormed (collapseWsAux b l) = true := by
  induction l generalizing b with
  | nil => rfl
  | cons c t ih =>
    by_cases h : pyIsSpace c = true
    · cases b with
      | true => simpa [collapseWsAux, h] using ih true
      | false =>
        simp only [collapseWsAux, h, if_true, Bool.false_eq_true, if_false]
        rw [wsNormed_cons]
        exact ⟨fun _ => ⟨rfl, headNotWs_collapseWsAux_true t⟩, ih true⟩
    · simp only [collapseWsAux, h, if_false, Bool.false_eq_true]
      rw [wsNormed_cons]
      exact ⟨fun hc => absurd hc h, ih false⟩

theorem collapseWsAux_eq_self {l : List Char} (h : wsNormed l = true) :
    collapseWsAux false l = l ∧ (headNotWs l = true → collapseWsAux true l = l) := by
  induction l with
  | nil => exact ⟨rfl, fun _ => rfl⟩
  | cons c t ih =>
    obtain ⟨hcond, ht⟩ := wsNormed_cons.mp h
    by_cases hc : pyIsSpace c = true
    · obtain ⟨hsp, hhd⟩ := hcond hc
      subst hsp
      refine ⟨?_, fun habs => ?_⟩
      · show ' ' :: collapseWsAux true t = ' ' :: t
        rw [(ih ht).2 hhd]
      · simp [headNotWs, hc] at habs
    · refine ⟨?_, fun _ => ?_⟩ <;>
      · simp only [collapseWsAux, hc, if_false, Bool.false_eq_true]
        rw [(ih ht).1]

theorem wsNormed_dropWhile {l : List Char} (h : wsNormed l = true) :
    wsNormed (l.dropWhile pyIsSpace) = true := by
  induction l with
  | nil => exact h
  | cons c t ih =>
    obtain ⟨_, ht⟩ := wsNormed_cons.mp h
    by_cases hc : pyIsSpace c = true
    · simpa [List.dropWhile, hc] using ih ht
    · simpa [List.dropWhile, hc] using h

theorem headNotWs_dropWhile (l : List Char) :
    headNotWs (l.dropWhile pyIsSpace) = true := by
  induction l with
  | nil => rfl
  | cons c t ih =>
    by_cases hc : pyIsSpace c = true
    · simpa [List.dropWhile, hc] using ih
    · simp [List.dropWhile, hc, headNotWs]

theorem headNotWs_dropTrailingWs {l : List Char} (h : headNotWs l = true) :
    headNotWs (dropTrailingWs l) = true := by
  cases l with
  | nil => rfl
  | cons c t =>
    have hc : pyIsSpace c = false := by simpa [headNotWs] using h
    rw [dropTrailingWs_cons]
    cases hr : dropTrailingWs t with
    | nil => simp [hc, headNotWs]
    | cons d r => simp [headNotWs, hc]

theorem wsNormed_dropTrailingWs {l : List Char} (h : wsNormed l = true) :
    wsNormed (dropTrailingWs l) = true := by
  induction l with
  | nil => exact h
  | cons c t ih =>
    obtain ⟨hcond, ht⟩ := wsNormed_cons.mp h
    rw [dropTrailingWs_cons]
    cases hr : dropTrailingWs t with
    | nil =>
      by_cases hc : pyIsSpace c = true
      · simp [hc, wsNormed]
      · simp [hc, wsNormed_cons, wsNormed]
    | cons d r =>
      rw [wsNormed_cons]
      refine ⟨fun hc => ?_, by rw [← hr]; exact ih ht⟩
      obtain ⟨hsp, hhd⟩ := hcond hc
      refine ⟨hsp, ?_⟩
      have := headNotWs_dropTrailingWs (l := t) hhd
      rwa [hr] at this

theorem dropTrailingWs_idem (l : List Char) :
    dropTrailingWs (dropTrailingWs l) = dropTrailingWs l := by
  induction l with
  | nil => rfl
  | cons c t ih =>
    rw [dropTrailingWs_cons]
    cases hr : dropTrailingWs t with
    | nil =>
      by_cases hc : pyIsSpace c = true
      · simp [hc, dropTrailingWs]
      · simp [hc, dropTrailingWs]
    | cons d r =>
      have hdr : dropTrailingWs (d :: r) = d :: r := by rw [← hr, ih, hr]
      rw [dropTrailingWs_cons, hdr]

theorem dropWhile_eq_self_of_headNotWs {l : List Char} (h : headNotWs l = true) :
    l.dropWhile pyIsSpace = l := by
  cases l with
  | nil => rfl
  | cons c t =>
    simp only [headNotWs, Bool.not_eq_true'] at h
    simp [List.dropWhile, h]

theorem pyStrip_idem (l : List Char) : pyStrip (pyStrip l) = pyStrip l := by
  unfold pyStrip
  rw [dropWhile_eq_self_of_headNotWs
        (headNotWs_dropTrailingWs (headNotWs_dropWhile l)),
      dropTrailingWs_idem]

theorem normalizeWs_idem (l : List Char) : normalizeWs (normalizeWs l) = normalizeWs l := by
  unfold normalizeWs
  have h1 : wsNormed (collapseWs l) = true := wsNormed_collapseWsAux false l
  have h2 : wsNormed (pyStrip (collapseWs l)) = true :=
    wsNormed_dropTrailingWs (wsNormed_dropWhile h1)
  rw [show collapseWs (pyStrip (collapseWs l)) = pyStrip (collapseWs l) from
        (collapseWsAux_eq_self h2).1,
      pyStrip_idem]

/-! Characters appearing in the normalised output are drawn from the input plus the space. -/

theorem mem_collapseWsAux {c : Char} :
    ∀ (b : Bool) (l : List Char), c ∈ collapseWsAux b l → c = ' ' ∨ c ∈ l := by
  intro b l
  induction l generalizing b with
  | nil => intro h; simp [collapseWsAux] at h
  | cons d t ih =>
    by_cases hd : pyIsSpace d = true
    · cases b with
      | true =>
        intro h
        rcases ih true (by simpa [collapseWsAux, hd] using h) with h' | h'
        · exact Or.inl h'
        · exact Or.inr (by simp [h'])
      | false =>
        intro h
        simp only [collapseWsAux, hd, if_true, Bool.false_eq_true, if_false,
          List.mem_cons] at h
        rcases h with h | h
        · exact Or.inl h
        · rcases ih true h with h' | h'
          · exact Or.inl h'
          · exact Or.inr (by simp [h'])
    · intro h
      simp only [collapseWsAux, hd, Bool.false_eq_true, if_false, List.mem_cons] at h
      rcases h with h | h
      · exact Or.inr (by simp [h])
      · rcases ih false h with h' | h'
        · exact Or.inl h'
        · exact Or.inr (by simp [h'])

theorem mem_dropWhileWs {c : Char} :
    ∀ l : List Char, c ∈ l.dropWhile pyIsSpace → c ∈ l := by
  intro l
  induction l with
  | nil => intro h; simp [List.dropWhile] at h
  | cons d t ih =>
    intro h
    by_cases hd : pyIsSpace d = true
    · exact List.mem_cons_of_mem d (ih (by simpa [List.dropWhile, hd] using h))
    · simpa [List.dropWhile, hd] using h

theorem mem_dropTrailingWs {c : Char} :
    ∀ l : List Char, c ∈ dropTrailingWs l → c ∈ l := by
  intro l
  induction l with
  | nil => intro h; simp [dropTrailingWs] at h
  | cons d t ih =>
    intro h
    rw [dropTrailingWs_cons] at h
    cases hr : dropTrailingWs t with
    | nil =>
      rw [hr] at h
      by_cases hd : pyIsSpace d = true
      · simp [hd] at h
      · simp only [hd, if_false, Bool.false_eq_true, List.mem_singleton] at h
        simp [h]
    | cons e r =>
      rw [hr] at h
      rcases List.mem_cons.mp h with h' | h'
      · simp [h']
      · exact List.mem_cons_of_mem d (ih (by rw [hr]; exact h'))

theorem mem_normalizeWs {c : Char} {l : List Char} (h : c ∈ normalizeWs l) :
    c = ' ' ∨ c ∈ l := by
  unfold normalizeWs pyStrip at h
  exact mem_collapseWsAux false l (mem_dropWhileWs _ (mem_dropTrailingWs _ h))

theorem sanitize_eq_normalizeWs {x : List Char} (h : ∀ c ∈ x, plainChar c = true) :
    _sanitize_input x = normalizeWs x := by
  unfold _sanitize_input
  rw [htmlEscape_eq_self h, stripDangerous_eq_self h]

/-- C4 counterexample input and its double application: `html.escape` re-escapes
the ampersand produced by the first pass. -/
theorem sanitize_amp : _sanitize_input ("&".data) = "&amp;".data := by decide

/-! Substring-count lemmas used for the disclaimer-occurrence statements. -/

theorem isPrefixOf_append_self (p r : List Char) : p.isPrefixOf (p ++ r) = true := by
  induction p with
  | nil => simp [List.isPrefixOf]
  | cons c t ih => simp [List.isPrefixOf, ih]

theorem countOccur_le_append_left (pat : List Char) :
    ∀ x y : List Char, countOccur pat y ≤ countOccur pat (x ++ y) := by
  intro x y
  induction x with
  | nil => simp
  | cons c t ih =>
    calc countOccur pat y ≤ countOccur pat (t ++ y) := ih
    _ ≤ countOccur pat ((c :: t) ++ y) := by
        simp only [List.cons_append, countOccur]
        exact Nat.le_add_left _ _

theorem one_le_countOccur_self_append (pat y : List Char) :
    1 ≤ countOccur pat (pat ++ y) := by
  cases pat with
  | nil =>
    cases y with
    | nil => simp [countOccur]
    | cons c t => simp [countOccur, List.isPrefixOf]
  | cons c t =>
    have h := isPrefixOf_append_self (c :: t) y
    rw [List.cons_append] at h ⊢
    simp only [countOccur, h, if_true]
    exact Nat.le_add_right _ _

/-! Moderation helper lemmas. -/

theorem moderationViolations_ne_nil_of_indicator {msg i : List Char}
    (hi : i ∈ all_moderation_indicators)
    (hc : containsSub i (toLowerList msg) = true) :
    moderationViolations msg ≠ [] := by
  unfold moderationViolations
  rcases List.mem_append.mp hi with h | h
  · have ha : hate_indicators.any (fun j => containsSub j (toLowerList msg)) = true :=
      List.any_eq_true.mpr ⟨i, h, hc⟩
    rw [ha]
    simp
  · have ha : self_harm_indicators.any (fun j => containsSub j (toLowerList msg)) = true :=
      List.any_eq_true.mpr ⟨i, h, hc⟩
    rw [ha]
    split <;> simp

theorem moderation_rejects {env : CollabEnv} {s : ChatState}
    (hexn : env.moderation_exn = none)
    (hval : validationPassed s = true)
    (hne : moderationViolations (sanitizedOf s) ≠ []) :
    moderationPassed (_moderate_input_node env s) = false := by
  unfold _moderate_input_node
  rw [hval, hexn]
  cases hv : moderationViolations (sanitizedOf s) with
  | nil => exact absurd hv hne
  | cons a t => simp [moderationPassed]

theorem moderation_exn_rejects {env : CollabEnv} {s : ChatState} {e : List Char}
    (hexn : env.moderation_exn = some e)
    (hval : validationPassed s = true) :
    moderationPassed (_moderate_input_node env s) = false := by
  unfold _moderate_input_node
  rw [hval, hexn]
  simp [moderationPassed]

/-! Claim C4. -/

/-- C4 counterexample: sanitization is not idempotent — on the input `&` the
first pass yields `&amp;` and the second pass re-escapes the ampersand to
`&amp;amp;`. -/
theorem C4_counterexample :
    ¬ (_sanitize_input (_sanitize_input "&".data) = _sanitize_input "&".data) := by
  decide

/-- C4 (amended): the Input Guard's cleaning function is idempotent on inputs
containing none of the five characters `html.escape` rewrites
(`&`, `<`, `>`, double quote, single quote); on such inputs both passes reduce
to the whitespace normalisation, which is idempotent.  (On inputs with those
characters a second pass re-escapes the `&` of the produced entities.) -/
theorem C4_sanitize_idempotent_on_plain (x : List Char)
    (h : ∀ c ∈ x, plainChar c = true) :
    _sanitize_input (_sanitize_input x) = _sanitize_input x := by
  have h2 : ∀ c ∈ normalizeWs x, plainChar c = true := by
    intro c hc
    rcases mem_normalizeWs hc with h' | h'
    · rw [h']; decide
    · exact h c h'
  rw [sanitize_eq_normalizeWs h, sanitize_eq_normalizeWs h2, normalizeWs_idem]

/-- C4 witness: the amended idempotence applied to a concrete plain input. -/
theorem C4_witness :
    (∀ c ∈ "hello   world".data, plainChar c = true) ∧
    _sanitize_input (_sanitize_input "hello   world".data) =
      _sanitize_input "hello   world".data :=
  ⟨by decide, C4_sanitize_idempotent_on_plain _ (by decide)⟩

/-! Claim C6. -/

/-- C6: when the verifier collaborator raises, the verification outcome is the
fail-closed synthetic result (`is_safe = false`, classified as medical advice,
with a detail naming the failure), and the router sends the run down the retry
edge (towards the retry-count check), not to `safe` or `error`. -/
theorem C6_verifier_fails_closed (env : CollabEnv) (k : Nat) (s : ChatState)
    (e : List Char) (h : env.verify_call k = CollabOutcome.exn e) :
    (_verify_medical_node env k s).1.medical_verification_result =
      some { is_safe := false, is_medical_advice := true,
             feedback := "Verification failed: ".data ++ e, raw_response := [] }
    ∧ _should_retry_or_continue (_verify_medical_node env k s).1 = "retry" := by
  unfold _verify_medical_node
  rw [h]
  exact ⟨rfl, rfl⟩

/-- C6 witness: the fail-closed retry route on a concrete raising verifier. -/
theorem C6_witness :
    envVerifyExn.verify_call 0 = CollabOutcome.exn "Request timeout".data ∧
    _should_retry_or_continue
      (_verify_medical_node envVerifyExn 0 (initialState qKambo uAnon)).1 = "retry" :=
  ⟨rfl, (C6_verifier_fails_closed envVerifyExn 0 (initialState qKambo uAnon)
      "Request timeout".data rfl).2⟩

/-! Claim C10. -/

/-- C10: moderation matches its indicator words as raw case-insensitive
substrings of the cleaned message, so a message containing an indicator only
inside a longer benign word (`harm` inside `pharmacy`) is rejected with
`passed = false`, although the indicator does not occur as a standalone word
(witnessed by the `\b`-style matcher `containsWord`). -/
theorem C10_indicator_substring_matching :
    (∀ (env : CollabEnv) (s : ChatState), env.moderation_exn = none →
        validationPassed s = true →
        containsSub "harm".data (toLowerList (sanitizedOf s)) = true →
        moderationPassed (_moderate_input_node env s) = false)
  ∧ containsSub "harm".data (toLowerList qPharmacy) = true
  ∧ containsWord "harm".data (toLowerList qPharmacy) = false
  ∧ moderationViolations qPharmacy = ["Potential hate speech detected".data] := by
  refine ⟨?_, by decide, by decide, by decide⟩
  intro env s hexn hval hc
  exact moderation_rejects hexn hval
    (moderationViolations_ne_nil_of_indicator (i := "harm".data) (by decide) hc)

/-- C10 witness: the substring rule applied to the concrete pharmacy input. -/
theorem C10_witness :
    moderationPassed
      (_moderate_input_node envSafe (_validate_input_node (initialState qPharmacy uAnon)))
      = false :=
  C10_indicator_substring_matching.1 envSafe _ rfl (by decide) (by decide)

/-! Claim C5. -/

/-- C5 counterexample: the empty input is accepted by validation (there is no
emptiness check), and the run reaches the topic-classification collaborator —
one call beyond the Input Guard — contradicting the claimed validation failure
with zero collaborator calls. -/
theorem C5_counterexample :
    validate_input [] = (true, []) ∧
    process_calls envOffTopic [] uAnon = [CollabCall.topicClassify] := by
  constructor
  · decide
  · decide

/-- C5 (amended): the empty input passes validation with sanitized text `""`
and continues through moderation to the topic-classification call; it is not
rejected as a validation failure.  With a classifier answering NO the run then
ends with `success = false` and the off-topic rejection message. -/
theorem C5_empty_input_passes_validation :
    validate_input [] = (true, [])
  ∧ (∀ u, _should_continue_after_validation
        (_validate_input_node (initialState [] u)) = "continue")
  ∧ (∀ (env : CollabEnv) (u : List Char), env.moderation_exn = none →
      _should_continue_after_moderation
        (_moderate_input_node env (_validate_input_node (initialState [] u)))
          = "continue")
  ∧ process_calls envOffTopic [] uAnon = [CollabCall.topicClassify]
  ∧ (process_message envOffTopic [] uAnon).success = false
  ∧ (process_message envOffTopic [] uAnon).response = some kambo_only_response := by
  refine ⟨by decide, fun u => rfl, ?_, by decide, by decide, by decide⟩
  intro env u h
  obtain ⟨sc, gc, vc, ec, me⟩ := env
  have h' : me = none := h
  subst h'
  rfl

/-- C5 witness: the moderation-continue component at a concrete environment. -/
theorem C5_witness :
    _should_continue_after_moderation
      (_moderate_input_node envOffTopic (_validate_input_node (initialState [] uAnon)))
        = "continue" :=
  C5_empty_input_passes_validation.2.2.1 envOffTopic uAnon rfl

/-! Claim C7. -/

/-- C7: the verifier's parser sets `is_safe` exactly when SAFE occurs in the
upper-cased (stripped) raw output; when unsafe, the feedback is exactly the
phrases of the vocabulary keywords occurring as substrings, joined in the fixed
source order, defaulting to the generic contains-medical-advice detail when no
keyword occurs. -/
theorem C7_parser_characterisation (raw : List Char) :
    (parseVerification raw).is_safe
      = containsSub "SAFE".data (toUpperList (pyStrip raw))
    ∧ ((parseVerification raw).is_safe = false →
        (parseVerification raw).feedback =
          (let found := (medicalVocabPhrases.filter
              (fun kv => containsSub kv.1 (toUpperList (pyStrip raw)))).map
                (fun kv => kv.2)
           if found.isEmpty then generic_medical_feedback else found.flatten)) := by
  constructor
  · rfl
  · intro hunsafe
    have hs : containsSub "SAFE".data (toUpperList (pyStrip raw)) = false := hunsafe
    simp only [parseVerification, medicalVocabPhrases, hs, Bool.false_eq_true, if_false,
      List.filter, generic_medical_feedback]
    by_cases h1 : containsSub "DIAGNOSIS".data (toUpperList (pyStrip raw)) = true <;>
    by_cases h2 : containsSub "TREATMENT".data (toUpperList (pyStrip raw)) = true <;>
    by_cases h3 : containsSub "DOSAGE".data (toUpperList (pyStrip raw)) = true <;>
    by_cases h4 : containsSub "CURE".data (toUpperList (pyStrip raw)) = true <;>
    by_cases h5 : containsSub "HEAL".data (toUpperList (pyStrip raw)) = true <;>
    simp [h1, h2, h3, h4, h5, List.flatten]

/-- C7 witness: the parser on a concrete unsafe verifier output. -/
theorem C7_witness :
    (parseVerification "MEDICAL_ADVICE TREATMENT".data).is_safe = false ∧
    (parseVerification "MEDICAL_ADVICE TREATMENT".data).feedback =
      "Contains treatment recommendations. ".data := by
  have h := (C7_parser_characterisation "MEDICAL_ADVICE TREATMENT".data).2 (by decide)
  exact ⟨by decide, by rw [h]; decide⟩

/-! Claim C3. -/

/-- C3 counterexample: when the topic-classification collaborator raises, the
run is rejected (fail-closed) with the Kambo-only message after a single
collaborator call — it does not proceed to generation. -/
theorem C3_counterexample :
    (process_message envSafetyExn qKambo uAnon).success = false ∧
    (process_message envSafetyExn qKambo uAnon).response = some kambo_only_response ∧
    process_calls envSafetyExn qKambo uAnon = [CollabCall.topicClassify] := by
  refine ⟨by decide, by decide, by decide⟩

/-- C3 (amended): the topic check fails closed.  Whatever the exception message
and the behaviour of the downstream collaborators, a raising classifier sets
`safety_check_result = false`, the run is routed to error handling, and the
generation collaborator is never invoked; generation is reached only when the
classifier's answer contains YES. -/
theorem C3_topic_check_fails_closed (e : List Char) (g : CollabOutcome)
    (v eh : Nat → CollabOutcome) :
    process_calls (envWithSafetyExn e g v eh) qKambo uAnon = [CollabCall.topicClassify]
    ∧ (runGraphState (envWithSafetyExn e g v eh) qKambo uAnon).map
        (fun s => s.safety_check_result) = some (some false)
    ∧ (process_message (envWithSafetyExn e g v eh) qKambo uAnon).success = false
    ∧ (∀ ans : List Char,
        _should_generate_response
          (_check_safety_node { envWithSafetyExn e g v eh with safety_call := .ok ans }
            (_moderate_input_node (envWithSafetyExn e g v eh)
              (_validate_input_node (initialState qKambo uAnon)))).1
          = (if containsSub "YES".data (toUpperList (pyStrip ans))
             then "continue" else "reject")) := by
  refine ⟨rfl, rfl, rfl, ?_⟩
  intro ans
  by_cases h : containsSub "YES".data (toUpperList (pyStrip ans)) = true
  · simp only [_check_safety_node, _should_generate_response, h]
    rfl
  · rw [Bool.not_eq_true] at h
    simp only [_check_safety_node, _should_generate_response, h]
    rfl

/-! Node-level helper lemmas for the state machine. -/

theorem max_attempts_eq : max_attempts = 3 := rfl

theorem validate_attempts (s : ChatState) :
    (_validate_input_node s).medical_verification_attempts
      = s.medical_verification_attempts := by
  unfold _validate_input_node
  dsimp only
  split <;> rfl

theorem moderate_attempts (env : CollabEnv) (s : ChatState) :
    (_moderate_input_node env s).medical_verification_attempts
      = s.medical_verification_attempts := by
  unfold _moderate_input_node
  dsimp only
  repeat' split
  all_goals rfl

theorem safety_attempts (env : CollabEnv) (s : ChatState) :
    (_check_safety_node env s).1.medical_verification_attempts
      = s.medical_verification_attempts := by
  unfold _check_safety_node
  dsimp only
  repeat' split
  all_goals rfl

theorem retrieve_attempts (s : ChatState) :
    (_retrieve_context_node s).medical_verification_attempts
      = s.medical_verification_attempts := by
  unfold _retrieve_context_node
  dsimp only
  split <;> rfl

theorem generate_attempts (env : CollabEnv) (s : ChatState) :
    (_generate_kambo_response_node env s).1.medical_verification_attempts
      = s.medical_verification_attempts := by
  unfold _generate_kambo_response_node
  dsimp only
  repeat' split
  all_goals rfl

theorem verify_attempts (env : CollabEnv) (k : Nat) (s : ChatState) :
    (_verify_medical_node env k s).1.medical_verification_attempts
      = s.medical_verification_attempts := by
  unfold _verify_medical_node
  dsimp only
  split <;> rfl

theorem enhanced_attempts (env : CollabEnv) (k : Nat) (s : ChatState) :
    (_enhanced_kambo_response_node env k s).1.medical_verification_attempts
      = s.medical_verification_attempts := by
  unfold _enhanced_kambo_response_node
  dsimp only
  split <;> rfl

theorem createFinal_attempts (s : ChatState) :
    (_create_final_response_node s).medical_verification_attempts
      = s.medical_verification_attempts := by
  unfold _create_final_response_node
  dsimp only
  split <;> rfl

theorem handleError_attempts (s : ChatState) :
    (_handle_error_node s).medical_verification_attempts
      = s.medical_verification_attempts := rfl

theorem checkRetry_attempts (s : ChatState) :
    (_check_retry_limit_node s).medical_verification_attempts
      = if s.medical_verification_attempts < max_attempts
        then s.medical_verification_attempts + 1
        else s.medical_verification_attempts := by
  unfold _check_retry_limit_node
  dsimp only
  split <;> rfl

theorem retry_route_attempts {s : ChatState}
    (h : _should_retry_or_fail s = "retry") :
    s.medical_verification_attempts < max_attempts := by
  unfold _should_retry_or_fail at h
  split at h
  · assumption
  · exact absurd h (by decide)

theorem fail_route_of_max {s : ChatState}
    (h : s.medical_verification_attempts = max_attempts) :
    _should_retry_or_fail s = "fail" := by
  unfold _should_retry_or_fail
  rw [h]
  rfl

theorem handleError_error_truthy (s : ChatState) :
    strTruthy (_handle_error_node s).error = true := by
  unfold _handle_error_node
  cases he : s.error with
  | none =>
    show strTruthy (some unexpected_error_message) = true
    decide
  | some e =>
    show strTruthy (some (if e.isEmpty then unexpected_error_message else e)) = true
    cases hee : e.isEmpty with
    | true => simp [hee]; decide
    | false => simp [strTruthy, hee]

/-! Loop-level lemmas. -/

theorem verifyLoop_attempts_le (env : CollabEnv) :
    ∀ (fuel k : Nat) (s : ChatState) (r : ChatState × List CollabCall),
      verifyLoop env fuel k s = some r →
      s.medical_verification_attempts ≤ max_attempts →
      r.1.medical_verification_attempts ≤ max_attempts := by
  intro fuel
  induction fuel with
  | zero =>
    intro k s r h _
    simp [verifyLoop] at h
  | succ n ih =>
    intro k s r h hle
    simp only [verifyLoop] at h
    split at h
    · -- safe exit
      injection h with h2
      subst h2
      rw [createFinal_attempts, verify_attempts]
      exact hle
    · split at h
      · -- retry route
        split at h
        · -- retry edge taken
          split at h
          · -- enhanced draft present: recurse
            split at h
            · next s4 c3 heq =>
              injection h with h2
              subst h2
              have hrec := ih (k + 1) _ (s4, c3) heq (by
                rw [enhanced_attempts, checkRetry_attempts, verify_attempts,
                  max_attempts_eq] at *
                split <;> omega)
              exact hrec
            · exact Option.noConfusion h
          · -- enhanced failed to produce a draft
            injection h with h2
            subst h2
            rw [handleError_attempts, enhanced_attempts, checkRetry_attempts,
              verify_attempts, max_attempts_eq] at *
            split <;> omega
        · -- retry exhausted
          injection h with h2
          subst h2
          rw [handleError_attempts, checkRetry_attempts, verify_attempts,
            max_attempts_eq] at *
          split <;> omega
      · -- hard verifier error route
        injection h with h2
        subst h2
        rw [handleError_attempts, verify_attempts]
        exact hle

theorem verifyLoop_isSome (env : CollabEnv) :
    ∀ (fuel k : Nat) (s : ChatState),
      max_attempts + 1 ≤ fuel + s.medical_verification_attempts →
      1 ≤ fuel →
      (verifyLoop env fuel k s).isSome = true := by
  intro fuel
  induction fuel with
  | zero => intro k s _ h; omega
  | succ n ih =>
    intro k s hfuel _
    rw [max_attempts_eq] at hfuel
    simp only [verifyLoop]
    split
    · rfl
    · split
      · split
        · -- the retry edge was taken
          rename_i hretry2
          have hlt : (_check_retry_limit_node
              (_verify_medical_node env k s).1).medical_verification_attempts
                < max_attempts :=
            retry_route_attempts hretry2
          rw [checkRetry_attempts, verify_attempts, max_attempts_eq] at hlt
          have hs2 : s.medical_verification_attempts + 1 < 3 := by
            split at hlt <;> omega
          have hatt : (_enhanced_kambo_response_node env k
              (_check_retry_limit_node
                (_verify_medical_node env k s).1)).1.medical_verification_attempts
                  = s.medical_verification_attempts + 1 := by
            rw [enhanced_attempts, checkRetry_attempts, verify_attempts]
            rw [if_pos (by rw [max_attempts_eq]; omega)]
          have hres := ih (k + 1)
            (_enhanced_kambo_response_node env k
              (_check_retry_limit_node (_verify_medical_node env k s).1)).1
            (by rw [hatt, max_attempts_eq]; omega)
            (by omega)
          obtain ⟨r, hr⟩ := Option.isSome_iff_exists.mp hres
          rw [hr]
          obtain ⟨s4, c3⟩ := r
          split <;> rfl
        · rfl
      · rfl

theorem verifyLoop_exhaust (env : CollabEnv) :
    ∀ (fuel k : Nat) (s : ChatState) (r : ChatState × List CollabCall),
      verifyLoop env fuel k s = some r →
      s.medical_verification_attempts < max_attempts →
      r.1.medical_verification_attempts = max_attempts →
      strTruthy r.1.error = true := by
  intro fuel
  induction fuel with
  | zero =>
    intro k s r h _ _
    simp [verifyLoop] at h
  | succ n ih =>
    intro k s r h hlt hmax
    simp only [verifyLoop] at h
    split at h
    · -- a safe exit keeps the counter below the maximum: contradiction
      injection h with h2
      subst h2
      rw [createFinal_attempts, verify_attempts] at hmax
      omega
    · split at h
      · split at h
        · next hretry =>
          split at h
          · split at h
            · next s4 c3 heq =>
              injection h with h2
              subst h2
              have hlt2 : (_check_retry_limit_node
                  (_verify_medical_node env k s).1).medical_verification_attempts
                    < max_attempts :=
                retry_route_attempts hretry
              have := ih (k + 1) _ (s4, c3) heq
                (by rw [enhanced_attempts]; exact hlt2) hmax
              exact this
            · exact Option.noConfusion h
          · injection h with h2
            subst h2
            exact handleError_error_truthy _
        · injection h with h2
          subst h2
          exact handleError_error_truthy _
      · injection h with h2
        subst h2
        exact handleError_error_truthy _

theorem verifyLoop_success_structure (env : CollabEnv) :
    ∀ (fuel k : Nat) (s : ChatState) (r : ChatState × List CollabCall),
      verifyLoop env fuel k s = some r →
      strTruthy r.1.error = false →
      r.1.final_response =
        some ((r.1.kambo_response.getD []) ++ medical_disclaimer ++
          (if r.1.medical_verification_attempts > 1
           then retryInfoText r.1.medical_verification_attempts else [])) := by
  intro fuel
  induction fuel with
  | zero =>
    intro k s r h _
    simp [verifyLoop] at h
  | succ n ih =>
    intro k s r h herr
    simp only [verifyLoop] at h
    split at h
    · -- safe exit through the final-response node
      injection h with h2
      subst h2
      unfold _create_final_response_node at herr ⊢
      dsimp only at herr ⊢
      by_cases hc : strTruthy (_verify_medical_node env k s).1.error = true
      · rw [if_pos hc] at herr
        rw [herr] at hc
        exact absurd hc (by decide)
      · rw [if_neg hc] at herr ⊢
    · split at h
      · split at h
        · split at h
          · split at h
            · next s4 c3 heq =>
              injection h with h2
              subst h2
              exact ih (k + 1) _ (s4, c3) heq herr
            · exact Option.noConfusion h
          · injection h with h2
            subst h2
            rw [handleError_error_truthy _] at herr
            exact absurd herr (by decide)
        · injection h with h2
          subst h2
          rw [handleError_error_truthy _] at herr
          exact absurd herr (by decide)
      · injection h with h2
        subst h2
        rw [handleError_error_truthy _] at herr
        exact absurd herr (by decide)

/-! Run-level lemmas. -/

theorem initial_attempts (q u : List Char) :
    (initialState q u).medical_verification_attempts = 0 := rfl

theorem runGraph_total (env : CollabEnv) (q u : List Char) :
    (runGraph env q u).isSome = true := by
  simp only [runGraph]
  repeat' split
  all_goals try rfl
  next heq =>
  have h2 := verifyLoop_isSome env 4 0
    (_generate_kambo_response_node env
      (_retrieve_context_node
        (_check_safety_node env
          (_moderate_input_node env
            (_validate_input_node (initialState q u)))).1)).1
    (by rw [max_attempts_eq]; omega) (by omega)
  rw [heq] at h2
  exact absurd h2 (by decide)

theorem runGraph_attempts_le (env : CollabEnv) (q u : List Char)
    (r : ChatState × List CollabCall) (h : runGraph env q u = some r) :
    r.1.medical_verification_attempts ≤ max_attempts := by
  have hpre : (_generate_kambo_response_node env
      (_retrieve_context_node
        (_check_safety_node env
          (_moderate_input_node env
            (_validate_input_node
              (initialState q u)))).1)).1.medical_verification_attempts = 0 := by
    rw [generate_attempts, retrieve_attempts, safety_attempts, moderate_attempts,
      validate_attempts, initial_attempts]
  simp only [runGraph] at h
  split at h
  · split at h
    · split at h
      · split at h
        · split at h
          · split at h
            · next s4 c3 heq =>
              injection h with h2
              subst h2
              exact verifyLoop_attempts_le env 4 0 _ (s4, c3) heq
                (by rw [hpre, max_attempts_eq]; omega)
            · exact Option.noConfusion h
          · injection h with h2
            subst h2
            rw [handleError_attempts]
            rw [hpre, max_attempts_eq]
            omega
        · injection h with h2
          subst h2
          rw [handleError_attempts, retrieve_attempts, safety_attempts,
            moderate_attempts, validate_attempts, initial_attempts, max_attempts_eq]
          omega
      · injection h with h2
        subst h2
        rw [handleError_attempts, safety_attempts, moderate_attempts,
          validate_attempts, initial_attempts, max_attempts_eq]
        omega
    · injection h with h2
      subst h2
      rw [handleError_attempts, moderate_attempts, validate_attempts,
        initial_attempts, max_attempts_eq]
      omega
  · injection h with h2
    subst h2
    rw [handleError_attempts, validate_attempts, initial_attempts, max_attempts_eq]
    omega

theorem runGraph_exhaust_error (env : CollabEnv) (q u : List Char)
    (r : ChatState × List CollabCall) (h : runGraph env q u = some r)
    (hmax : r.1.medical_verification_attempts = max_attempts) :
    strTruthy r.1.error = true := by
  have hpre : (_generate_kambo_response_node env
      (_retrieve_context_node
        (_check_safety_node env
          (_moderate_input_node env
            (_validate_input_node
              (initialState q u)))).1)).1.medical_verification_attempts = 0 := by
    rw [generate_attempts, retrieve_attempts, safety_attempts, moderate_attempts,
      validate_attempts, initial_attempts]
  simp only [runGraph] at h
  split at h
  · split at h
    · split at h
      · split at h
        · split at h
          · split at h
            · next s4 c3 heq =>
              injection h with h2
              subst h2
              exact verifyLoop_exhaust env 4 0 _ (s4, c3) heq
                (by rw [hpre, max_attempts_eq]; omega) hmax
            · exact Option.noConfusion h
          · injection h with h2
            subst h2
            exact handleError_error_truthy _
        · injection h with h2
          subst h2
          exact handleError_error_truthy _
      · injection h with h2
        subst h2
        exact handleError_error_truthy _
    · injection h with h2
      subst h2
      exact handleError_error_truthy _
  · injection h with h2
    subst h2
    exact handleError_error_truthy _

theorem runGraph_success_structure (env : CollabEnv) (q u : List Char)
    (r : ChatState × List CollabCall) (h : runGraph env q u = some r)
    (herr : strTruthy r.1.error = false) :
    r.1.final_response =
      some ((r.1.kambo_response.getD []) ++ medical_disclaimer ++
        (if r.1.medical_verification_attempts > 1
         then retryInfoText r.1.medical_verification_attempts else [])) := by
  simp only [runGraph] at h
  split at h
  · split at h
    · split at h
      · split at h
        · split at h
          · split at h
            · next s4 c3 heq =>
              injection h with h2
              subst h2
              exact verifyLoop_success_structure env 4 0 _ (s4, c3) heq herr
            · exact Option.noConfusion h
          · injection h with h2
            subst h2
            rw [handleError_error_truthy _] at herr
            exact absurd herr (by decide)
        · injection h with h2
          subst h2
          rw [handleError_error_truthy _] at herr
          exact absurd herr (by decide)
      · injection h with h2
        subst h2
        rw [handleError_error_truthy _] at herr
        exact absurd herr (by decide)
    · injection h with h2
      subst h2
      rw [handleError_error_truthy _] at herr
      exact absurd herr (by decide)
  · injection h with h2
    subst h2
    rw [handleError_error_truthy _] at herr
    exact absurd herr (by decide)

/-! Claim C1. -/

/-- C1: the retry counter is bounded.  In every run the final value of
`medical_verification_attempts` is at most 3; the retry edge is taken only when
the (already incremented) counter is below 3; below the maximum the
check-retry-limit node increments the counter by exactly 1; at 3 the router
chooses terminal failure, never another regeneration; and the whole graph
(in particular the generate–verify loop) always terminates: the loop model's
fuel is never exhausted. -/
theorem C1_attempt_counter_invariant :
    (∀ (env : CollabEnv) (q u : List Char) (s : ChatState),
        runGraphState env q u = some s →
        s.medical_verification_attempts ≤ max_attempts)
  ∧ (∀ s : ChatState, _should_retry_or_fail s = "retry" →
        s.medical_verification_attempts < max_attempts)
  ∧ (∀ s : ChatState, s.medical_verification_attempts < max_attempts →
        (_check_retry_limit_node s).medical_verification_attempts
          = s.medical_verification_attempts + 1)
  ∧ (∀ s : ChatState, s.medical_verification_attempts = max_attempts →
        _should_retry_or_fail s = "fail")
  ∧ (∀ (env : CollabEnv) (q u : List Char), (runGraph env q u).isSome = true) := by
  refine ⟨?_, ?_, ?_, ?_, ?_⟩
  · intro env q u s hs
    unfold runGraphState at hs
    cases hrg : runGraph env q u with
    | none => rw [hrg] at hs; exact Option.noConfusion hs
    | some r =>
      rw [hrg] at hs
      injection hs with hs2
      subst hs2
      exact runGraph_attempts_le env q u r hrg
  · intro s h
    exact retry_route_attempts h
  · intro s h
    rw [checkRetry_attempts, if_pos h]
  · intro s h
    exact fail_route_of_max h
  · intro env q u
    exact runGraph_total env q u

/-- C1 witness: increment by one from the initial counter, forced failure at
the maximum, and termination of a run whose verifier never accepts. -/
theorem C1_witness :
    (_check_retry_limit_node (initialState qKambo uAnon)).medical_verification_attempts
      = (initialState qKambo uAnon).medical_verification_attempts + 1
  ∧ _should_retry_or_fail
      { initialState qKambo uAnon with medical_verification_attempts := 3 } = "fail"
  ∧ (runGraph envAlwaysUnsafe qKambo uAnon).isSome = true :=
  ⟨C1_attempt_counter_invariant.2.2.1 _ (by decide),
   C1_attempt_counter_invariant.2.2.2.1 _ (by decide),
   C1_attempt_counter_invariant.2.2.2.2 envAlwaysUnsafe qKambo uAnon⟩

/-! Claim C2. -/

/-- C2 counterexample: a run whose verifier always answers
MEDICAL_ADVICE TREATMENT exhausts its retries, yet `process_message` does not
return `success = true` with the safe-fallback message. -/
theorem C2_counterexample :
    ¬ ((process_message envAlwaysUnsafe qKambo uAnon).success = true ∧
       (process_message envAlwaysUnsafe qKambo uAnon).response
         = some retry_exhausted_response) := by
  decide

/-- C2 (amended): a run that ends with the counter at the maximum always ends
through the error handler with a truthy `error`, so `process_message` returns
`success = false` — not `success = true`.  Concretely, with an always-unsafe
verifier the counter reaches exactly 3 after only two enhanced regenerations,
the error handler is entered with no error set, and the result is the generic
error response with error `An unexpected error occurred`. -/
theorem C2_exhaustion_returns_failure :
    (∀ (env : CollabEnv) (q u : List Char) (s : ChatState),
        runGraphState env q u = some s →
        s.medical_verification_attempts = max_attempts →
        strTruthy s.error = true ∧ (process_message env q u).success = false)
  ∧ (process_message envAlwaysUnsafe qKambo uAnon).response
      = some generic_error_response
  ∧ (process_message envAlwaysUnsafe qKambo uAnon).error
      = some unexpected_error_message
  ∧ (runGraphState envAlwaysUnsafe qKambo uAnon).map
      (fun s => s.medical_verification_attempts) = some 3
  ∧ process_calls envAlwaysUnsafe qKambo uAnon =
      [CollabCall.topicClassify, CollabCall.generate, CollabCall.verify,
       CollabCall.enhanced, CollabCall.verify, CollabCall.enhanced,
       CollabCall.verify] := by
  refine ⟨?_, by decide, by decide, by decide, by decide⟩
  intro env q u s hs hmax
  unfold runGraphState at hs
  cases hrg : runGraph env q u with
  | none => rw [hrg] at hs; exact Option.noConfusion hs
  | some r =>
    rw [hrg] at hs
    injection hs with hs2
    subst hs2
    have herr := runGraph_exhaust_error env q u r hrg hmax
    refine ⟨herr, ?_⟩
    unfold process_message
    rw [hrg]
    simp [herr]

/-- C2 witness: the general exhaustion statement applied to the concrete
always-unsafe run. -/
theorem C2_witness :
    (process_message envAlwaysUnsafe qKambo uAnon).success = false := by
  obtain ⟨s, hs⟩ : ∃ s, runGraphState envAlwaysUnsafe qKambo uAnon = some s :=
    ⟨_, rfl⟩
  have hmax : s.medical_verification_attempts = max_attempts := by
    have h4 := C2_exhaustion_returns_failure.2.2.2.1
    rw [hs] at h4
    simp at h4
    rw [max_attempts_eq]
    exact h4
  exact (C2_exhaustion_returns_failure.1 envAlwaysUnsafe qKambo uAnon s hs hmax).2

/-! Claim C9. -/

set_option maxRecDepth 40000 in
/-- C9 counterexample: a successful run whose draft itself embeds the fixed
disclaimer produces a final response containing the disclaimer substring
twice, not exactly once. -/
theorem C9_counterexample :
    (process_message envEchoDisclaimer qKambo uAnon).success = true ∧
    (process_message envEchoDisclaimer qKambo uAnon).response = some frEcho ∧
    countOccur medical_disclaimer frEcho ≠ 1 := by
  refine ⟨by decide, by decide, by decide⟩

/-- C9 (amended): every run reaching terminal success returns
`final_response = draft ++ fixed disclaimer ++ refinement note`, where the note
is appended exactly when the attempt counter exceeds 1, and the disclaimer
substring occurs at least once (exactly once cannot be guaranteed when the
draft itself already contains the disclaimer). -/
theorem C9_final_response_structure (env : CollabEnv) (q u : List Char)
    (s : ChatState) (hs : runGraphState env q u = some s)
    (herr : strTruthy s.error = false) :
    s.final_response =
      some ((s.kambo_response.getD []) ++ medical_disclaimer ++
        (if s.medical_verification_attempts > 1
         then retryInfoText s.medical_verification_attempts else []))
    ∧ 1 ≤ countOccur medical_disclaimer
        ((s.kambo_response.getD []) ++ medical_disclaimer ++
          (if s.medical_verification_attempts > 1
           then retryInfoText s.medical_verification_attempts else [])) := by
  unfold runGraphState at hs
  cases hrg : runGraph env q u with
  | none => rw [hrg] at hs; exact Option.noConfusion hs
  | some r =>
    rw [hrg] at hs
    injection hs with hs2
    subst hs2
    refine ⟨runGraph_success_structure env q u r hrg herr, ?_⟩
    rw [List.append_assoc]
    calc 1 ≤ countOccur medical_disclaimer
          (medical_disclaimer ++
            (if r.1.medical_verification_attempts > 1
             then retryInfoText r.1.medical_verification_attempts else [])) :=
        one_le_countOccur_self_append _ _
    _ ≤ _ := countOccur_le_append_left _ _ _

set_option maxRecDepth 40000 in
/-- C9 witness: the structure theorem applied to a concrete accepting run. -/
theorem C9_witness :
    ((runGraphState envSafe qKambo uAnon).get (by decide)).final_response =
      some ((((runGraphState envSafe qKambo uAnon).get (by decide)).kambo_response.getD [])
        ++ medical_disclaimer ++
        (if ((runGraphState envSafe qKambo uAnon).get
              (by decide)).medical_verification_attempts > 1
         then retryInfoText ((runGraphState envSafe qKambo uAnon).get
              (by decide)).medical_verification_attempts
         else [])) :=
  (C9_final_response_structure envSafe qKambo uAnon _
    (Option.some_get _).symm (by decide)).1

/-! Claim C8. -/

/-- C8: an input whose cleaned text contains a configured indicator phrase is
rejected by moderation and the run goes straight to terminal error handling:
the generation collaborator receives zero calls of any kind (no topic
classification, generation, or verification) and the result is a failure.
An internal exception during moderation also yields `passed = false`. -/
theorem C8_moderation_fail_closed :
    (∀ (env : CollabEnv) (q u : List Char), env.moderation_exn = none →
        (validate_input q).1 = true →
        (∃ i ∈ all_moderation_indicators,
            containsSub i (toLowerList (validate_input q).2) = true) →
        process_calls env q u = [] ∧ (process_message env q u).success = false)
  ∧ (∀ (env : CollabEnv) (s : ChatState) (e : List Char),
        env.moderation_exn = some e → validationPassed s = true →
        moderationPassed (_moderate_input_node env s) = false) := by
  constructor
  · intro env q u hexn hval hind
    obtain ⟨i, hi, hc⟩ := hind
    have hne := moderationViolations_ne_nil_of_indicator hi hc
    have hvr : _validate_input_node (initialState q u) =
        { initialState q u with validation_result := some ⟨true, (validate_input q).2⟩ } := by
      unfold _validate_input_node
      dsimp only
      rw [show (initialState q u).user_message = q from rfl, hval]
      rfl
    have hv2 : validationPassed (_validate_input_node (initialState q u)) = true := by
      rw [hvr]; rfl
    have hsan : sanitizedOf (_validate_input_node (initialState q u))
        = (validate_input q).2 := by
      rw [hvr]; rfl
    have hmod : moderationPassed
        (_moderate_input_node env (_validate_input_node (initialState q u)))
          = false :=
      moderation_rejects hexn hv2 (hsan ▸ hne)
    have h1 : _should_continue_after_validation
        (_validate_input_node (initialState q u)) = "continue" := by
      unfold _should_continue_after_validation
      rw [hv2]
      rfl
    have h2 : _should_continue_after_moderation
        (_moderate_input_node env (_validate_input_node (initialState q u)))
          = "error" := by
      unfold _should_continue_after_moderation
      rw [hmod]
      rfl
    have hrun : runGraph env q u =
        some (_handle_error_node
          (_moderate_input_node env (_validate_input_node (initialState q u))), []) := by
      unfold runGraph
      dsimp only
      rw [h1, h2]
      rfl
    constructor
    · unfold process_calls
      rw [hrun]
    · unfold process_message
      rw [hrun]
      simp [handleError_error_truthy]
  · intro env s e hexn hval
    exact moderation_exn_rejects hexn hval

/-- C8 witness: zero collaborator calls and failure for an `attack` input, and
fail-closed moderation under an injected internal error. -/
theorem C8_witness :
    process_calls envSafe qAttack uAnon = []
  ∧ (process_message envSafe qAttack uAnon).success = false
  ∧ moderationPassed (_moderate_input_node envModExn
      (_validate_input_node (initialState qKambo uAnon))) = false := by
  refine ⟨?_, ?_, ?_⟩
  · exact (C8_moderation_fail_closed.1 envSafe qAttack uAnon rfl (by decide)
      ⟨"attack".data, by decide, by decide⟩).1
  · exact (C8_moderation_fail_closed.1 envSafe qAttack uAnon rfl (by decide)
      ⟨"attack".data, by decide, by decide⟩).2
  · exact C8_moderation_fail_closed.2 envModExn _ "database unavailable".data rfl
      (by decide)

end KamboChat
